import Mathlib

/-!
Shallow embedding of the appbackend repository (generate_pdf.py, main.py):
the AI content pipeline with its fallback template generators, the quality
gates, the session-store endpoints (clear, profile, regenerate, generate_cv)
and the PDF path construction.  The external Gemini call is modeled by an
oracle argument of type `Except String (Option GeminiResponse)`: `error`
models the call raising an exception (inside the `try` of each caller),
`ok` carries the response object (or `none` for a falsy response).
Python strings are modeled as Lean `String`s; `str.strip`, `str.split(",")`
and `str.count(".")` are modeled explicitly over the character lists.
-/

set_option linter.unusedVariables false
set_option maxRecDepth 8000

-- ===== Python string helpers =====

/-- Whitespace characters stripped by Python `str.strip()` (ASCII subset). -/
def pyIsSpace (c : Char) : Bool :=
  c = ' ' || c = '\t' || c = '\n' || c = '\r' || c = '\x0b' || c = '\x0c'

/-- `str.strip()` on a character list: drop whitespace from both ends. -/
def pyStripList (l : List Char) : List Char :=
  ((l.dropWhile pyIsSpace).reverse.dropWhile pyIsSpace).reverse

/-- Python `s.strip()`. -/
def pyStrip (s : String) : String :=
  String.mk (pyStripList s.data)

/-- Python `s.split(sep)` for a one-character separator: always returns at
least one piece, with empty pieces kept (`",".split(",") == ["", ""]`). -/
def splitOnChar (sep : Char) : List Char → List (List Char)
  | [] => [[]]
  | c :: cs =>
    if c = sep then [] :: splitOnChar sep cs
    else
      match splitOnChar sep cs with
      | [] => [[c]]
      | h :: t => (c :: h) :: t

/-- Python `s.count(c)` for a single-character needle. -/
def count_char (c : Char) (s : String) : Nat :=
  (s.data.filter (fun x => x == c)).length

/-- Does `needle` occur at the very start of `haystack`? -/
def listStartsWith : List Char → List Char → Bool
  | [], _ => true
  | _ :: _, [] => false
  | a :: as, b :: bs => a == b && listStartsWith as bs

/-- Does `needle` occur as a contiguous sublist of `haystack`? -/
def listContainsSub (needle : List Char) : List Char → Bool
  | [] => needle.isEmpty
  | c :: cs => listStartsWith needle (c :: cs) || listContainsSub needle cs

/-- Python substring test `needle in haystack`. -/
def pySubstr (needle haystack : String) : Bool :=
  listContainsSub needle.data haystack.data

/-- Python `s.lower()` (ASCII range, matching `Char.toLower`). -/
def pyLower (s : String) : String :=
  String.mk (s.data.map Char.toLower)

-- ===== Data model (dict entries of generate_pdf.py / main.py) =====

/-- An experience dict `{title, company, years, description}`; absent keys
are modeled by `""` (the code reads them with `exp.get(key, "")` and uses
truthiness, which coincides with `≠ ""`). -/
structure ExperienceEntry where
  title : String
  company : String
  years : String
  description : String
deriving DecidableEq

/-- An education dict `{school, degree, years}`. -/
structure EducationData where
  school : String
  degree : String
  years : String
deriving DecidableEq

/-- A project dict `{name, description}`. -/
structure ProjectData where
  name : String
  description : String
deriving DecidableEq

-- ===== Fallback generators (generate_pdf.py lines 43-85) =====

/-- `generate_fallback_summary(title, skills, experience_list)`. -/
def generate_fallback_summary (title : String) (skills : List String)
    (experience_list : List ExperienceEntry) : String :=
  let years_exp :=
    if experience_list.isEmpty then "Entry-level"
    else toString experience_list.length ++ "+ years"
  let top_skills :=
    if skills.isEmpty then "core technical skills"
    else String.intercalate ", " (skills.take 4)
  let exp_detail :=
    match experience_list with
    | [] => ""
    | exp :: _ =>
      if exp.title ≠ "" ∧ exp.company ≠ "" then
        " Previously worked as " ++ exp.title ++ " at " ++ exp.company ++ "."
      else ""
  title ++ " with " ++ years_exp ++ " of hands-on experience leveraging " ++
    top_skills ++ ". " ++
    "Demonstrates strong problem-solving ability, attention to detail, and a commitment to delivering reliable, high-quality software solutions." ++
    exp_detail

/-- The fixed soft-skill list `common_skills` of `generate_fallback_skills`. -/
def common_skills : List String :=
  ["Problem Solving", "Team Collaboration", "Communication", "Time Management"]

/-- Keywords of the developer family. -/
def developer_keywords : List String := ["developer", "engineer", "programmer"]

/-- Keywords of the designer family. -/
def designer_keywords : List String := ["designer", "ux", "ui"]

/-- Keywords of the manager family. -/
def manager_keywords : List String := ["manager", "lead", "director"]

/-- Role-specific skills of the developer family. -/
def developer_skills : List String := ["Python", "JavaScript", "Git", "API Development"]

/-- Role-specific skills of the designer family. -/
def designer_skills : List String := ["Figma", "Adobe XD", "User Research", "Prototyping"]

/-- Role-specific skills of the manager family. -/
def manager_skills : List String :=
  ["Leadership", "Strategic Planning", "Budget Management", "Stakeholder Communication"]

/-- `any(word in title_lower for word in keywords)`. -/
def title_matches (keywords : List String) (title_lower : String) : Bool :=
  keywords.any (fun w => pySubstr w title_lower)

/-- `generate_fallback_skills(title)`: title-keyword driven skill list.
Note that the manager branch returns `manager_skills` alone, without
appending `common_skills`. -/
def generate_fallback_skills (title : String) : List String :=
  let title_lower := pyLower title
  if title_matches developer_keywords title_lower then
    developer_skills ++ common_skills
  else if title_matches designer_keywords title_lower then
    designer_skills ++ common_skills
  else if title_matches manager_keywords title_lower then
    manager_skills
  else common_skills

/-- `generate_fallback_experience_description(title, company, current_desc)`. -/
def generate_fallback_experience_description (title : String) (company : String)
    (current_desc : String) : String :=
  if current_desc ≠ "" ∧ current_desc.length > 20 then current_desc
  else
    "Contributed to key projects at " ++ company ++ " in the role of " ++ title ++
    ". Collaborated with cross-functional teams to deliver high-quality results. Applied technical expertise and problem-solving skills to overcome challenges."

-- ===== Gemini response model and extraction (generate_pdf.py lines 29-39) =====

/-- One part of a Gemini candidate content; `text` may be missing (`none`). -/
structure GeminiPart where
  text : Option String
deriving DecidableEq

/-- Content of a Gemini candidate. -/
structure GeminiContent where
  parts : List GeminiPart
deriving DecidableEq

/-- One Gemini candidate. -/
structure GeminiCandidate where
  content : GeminiContent
deriving DecidableEq

/-- A Gemini response: a list of candidates (possibly empty, modeling a
falsy/missing `candidates` attribute). -/
structure GeminiResponse where
  candidates : List GeminiCandidate
deriving DecidableEq

/-- `extract_gemini_text(response)`: `None` for a falsy response or empty
candidate list; otherwise join the truthy part texts of the first
candidate, strip, and return `None` if the result is empty. -/
def extract_gemini_text (response : Option GeminiResponse) : Option String :=
  match response with
  | none => none
  | some r =>
    match r.candidates with
    | [] => none
    | c :: _ =>
      let text := pyStrip (String.join
        ((c.content.parts.filterMap (fun p => p.text)).filter (fun t => t ≠ "")))
      if text = "" then none else some text

/-- Outcome of one `client.models.generate_content` call: `error` models an
exception raised inside the caller's `try` block (transport error, auth
error, attribute error on a malformed response object), `ok` a returned
response object (`none` when falsy). -/
def AICallOutcome : Type := Except String (Option GeminiResponse)

/-- Convenience constructor: a response whose single candidate has a single
part carrying `s`. -/
def mkResp (s : String) : GeminiResponse :=
  { candidates := [{ content := { parts := [{ text := some s }] } }] }

-- ===== AI content functions (generate_pdf.py lines 89-279) =====

/-- `generate_summary_with_ai(...)`.  `client` models whether the Gemini
client is configured (API key present); `call` is the oracle for the one
outbound call.  `name`, `experience`, `style`, `education_list` and
`projects_list` only feed the prompt, which does not influence the
control flow modeled here. -/
def generate_summary_with_ai (client : Bool) (call : Except String (Option GeminiResponse))
    (name : String) (title : String) (skills : List String) (experience : List String)
    (style : String) (experience_list : List ExperienceEntry)
    (education_list : List EducationData) (projects_list : List ProjectData) : String :=
  if !client then generate_fallback_summary title skills experience_list
  else
    match call with
    | .error _ => generate_fallback_summary title skills experience_list
    | .ok response =>
      match extract_gemini_text response with
      | none => generate_fallback_summary title skills experience_list
      | some summary =>
        if count_char '.' summary < 2 then
          generate_fallback_summary title skills experience_list
        else summary

/-- `[s.strip() for s in skills_text.split(",") if s.strip()]`. -/
def parse_skills (skills_text : String) : List String :=
  (((splitOnChar ',' skills_text.data).map pyStripList).filter
    (fun l => !l.isEmpty)).map String.mk

/-- `generate_skills_with_ai(title, experience, current_skills)`.  Note that
`current_skills` only feeds the prompt: no code path returns it. -/
def generate_skills_with_ai (client : Bool) (call : Except String (Option GeminiResponse))
    (title : String) (experience : List String) (current_skills : List String) : List String :=
  if !client then generate_fallback_skills title
  else
    match call with
    | .error _ => generate_fallback_skills title
    | .ok response =>
      match extract_gemini_text response with
      | none => generate_fallback_skills title
      | some skills_text =>
        let skills := parse_skills skills_text
        if skills.length < 3 then generate_fallback_skills title
        else skills.take 12

/-- `generate_experience_description_with_ai(title, company, years, description)`. -/
def generate_experience_description_with_ai (client : Bool)
    (call : Except String (Option GeminiResponse))
    (title : String) (company : String) (years : String) (description : String) : String :=
  if !client then generate_fallback_experience_description title company description
  else
    match call with
    | .error _ => generate_fallback_experience_description title company description
    | .ok response =>
      match extract_gemini_text response with
      | none => generate_fallback_experience_description title company description
      | some new_description =>
        if new_description.length < 50 then
          generate_fallback_experience_description title company description
        else new_description

-- ===== Failure predicates for the three AI operations =====

/-- The summary call fails or its text is rejected by the quality gate:
client missing, call raised, extraction empty/falsy, or fewer than two
sentence terminators. -/
def summary_call_failed (client : Bool)
    (call : Except String (Option GeminiResponse)) : Bool :=
  !client ||
    match call with
    | .error _ => true
    | .ok response =>
      match extract_gemini_text response with
      | none => true
      | some summary => count_char '.' summary < 2

/-- The skills call fails or its text is rejected: client missing, call
raised, extraction empty/falsy, or fewer than 3 parsed labels. -/
def skills_call_failed (client : Bool)
    (call : Except String (Option GeminiResponse)) : Bool :=
  !client ||
    match call with
    | .error _ => true
    | .ok response =>
      match extract_gemini_text response with
      | none => true
      | some skills_text => (parse_skills skills_text).length < 3

/-- The experience-description call fails or its text is rejected: client
missing, call raised, extraction empty/falsy, or text shorter than 50
characters. -/
def experience_call_failed (client : Bool)
    (call : Except String (Option GeminiResponse)) : Bool :=
  !client ||
    match call with
    | .error _ => true
    | .ok response =>
      match extract_gemini_text response with
      | none => true
      | some new_description => new_description.length < 50

/-- Well-formedness of a skills list: between 3 and 12 labels, each
non-empty and stripped. -/
def skills_wf (r : List String) : Prop :=
  3 ≤ r.length ∧ r.length ≤ 12 ∧ ∀ x ∈ r, x ≠ "" ∧ pyStrip x = x

-- ===== Session store and API layer (main.py) =====

/-- The provider profile returned by `get_linkedin_profile`; absent keys are
modeled by `""` (the code reads them with `.get(key, "")`). -/
structure ProviderProfile where
  name : String
  firstName : String
  lastName : String
  email : String
  id : String
  picture : String
deriving DecidableEq

/-- One `SESSION[user_id]` record.  The Python session value is a plain dict;
this structure models exactly the keys written by `initialize_user_data`. -/
structure UserData where
  name : String
  firstName : String
  lastName : String
  email : String
  id : String
  picture : String
  fullName : String
  title : String
  phone : String
  location : String
  summary : String
  skills : List String
  experience : List ExperienceEntry
  education : List EducationData
  projects : List ProjectData
  languages : List String
deriving DecidableEq

/-- `initialize_user_data(profile_result)` (main.py lines 94-113). -/
def initialize_user_data (p : ProviderProfile) : UserData :=
  { name := p.name
    firstName := p.firstName
    lastName := p.lastName
    email := p.email
    id := p.id
    picture := p.picture
    fullName := p.name
    title := ""
    phone := ""
    location := ""
    summary := ""
    skills := []
    experience := []
    education := []
    projects := []
    languages := [] }

/-- An HTTP JSON response: `ok` is a 200 payload, `err` carries the status
code (400 or 500) and the error message. -/
inductive Resp (α : Type) where
  | ok (value : α)
  | err (status : Nat) (msg : String)
deriving DecidableEq

/-- The payload of a successful `/api/regenerate` response: only the
regenerated value (plus its field name, and the index for experience). -/
inductive RegenValue where
  | summary (value : String)
  | skills (value : List String)
  | experience (index : Int) (value : String)
deriving DecidableEq

/-- `GET /api/profile` (main.py lines 145-149): the stored record, or 400
for a falsy or unknown user id. -/
def get_profile (user_id : String) (st : Option UserData) : Resp UserData :=
  match st with
  | none => .err 400 "Invalid or missing user_id"
  | some u =>
    if user_id = "" then .err 400 "Invalid or missing user_id"
    else .ok u

/-- `POST /api/clear` (main.py lines 153-171): resets the CV keys of the
stored record (`fullName` is reset to the stored `name`, the rest to
empty) and returns the cleared record together with the new session
state.  The identity keys `name`, `firstName`, `lastName`, `email`, `id`,
`picture` are not touched. -/
def clear_cv (user_id : String) (st : Option UserData) : Resp UserData × Option UserData :=
  match st with
  | none => (.err 400 "Invalid or missing user_id", none)
  | some u =>
    if user_id = "" then (.err 400 "Invalid or missing user_id", some u)
    else
      let u2 := { u with
        fullName := u.name
        title := ""
        phone := ""
        location := ""
        summary := ""
        skills := []
        experience := []
        education := []
        projects := []
        languages := [] }
      (.ok u2, some u2)

/-- Python list indexing `l[i]` with negative-index support: `none` models
an `IndexError`. -/
def pyGetItem {α : Type} (l : List α) (i : Int) : Option α :=
  let j : Int := if i < 0 then (l.length : Int) + i else i
  if h : 0 ≤ j ∧ j < (l.length : Int) then l.get? j.toNat else none

/-- Python `l[i]["description"] = d` on an experience list, with
negative-index support; `none` models an `IndexError`. -/
def pySetDescription (l : List ExperienceEntry) (i : Int) (d : String) :
    Option (List ExperienceEntry) :=
  let j : Int := if i < 0 then (l.length : Int) + i else i
  if 0 ≤ j ∧ j < (l.length : Int) then
    some (l.mapIdx (fun k e => if (k : Nat) = j.toNat then { e with description := d } else e))
  else none

/-- The `current_data` merge of `/api/regenerate`: Python copies arbitrary
JSON keys into the session dict (`user_data[key] = value`); it is modeled
as an arbitrary update of the typed record, applied before the field
dispatch. -/
def merge_current (current_data : Option (UserData → UserData)) (u : UserData) : UserData :=
  match current_data with
  | none => u
  | some f => f u

/-- `POST /api/regenerate` (main.py lines 174-260).  `client` and `call`
are the Gemini oracle of the one AI call the request performs.  Returns
the response and the new session value for this user. -/
def regenerate_field (client : Bool) (call : Except String (Option GeminiResponse))
    (user_id : String) (st : Option UserData) (field : String) (index : Option Int)
    (experience_data : Option ExperienceEntry)
    (current_data : Option (UserData → UserData)) :
    Resp RegenValue × Option UserData :=
  match st with
  | none => (.err 400 "Invalid or missing user_id", none)
  | some u0 =>
    if user_id = "" then (.err 400 "Invalid or missing user_id", some u0)
    else
      let u := merge_current current_data u0
      if field = "summary" then
        let summary := generate_summary_with_ai client call u.fullName u.title u.skills
          (u.experience.map (fun e => e.description)) "minimal" u.experience
          u.education u.projects
        (.ok (.summary summary), some { u with summary := summary })
      else if field = "skills" then
        let skills := generate_skills_with_ai client call u.title
          (u.experience.map (fun e => e.description)) u.skills
        (.ok (.skills skills), some { u with skills := skills })
      else if field = "experience" then
        match index with
        | none => (.err 400 "Experience index is required", some u)
        | some i =>
          match experience_data with
          | some e =>
            let description := generate_experience_description_with_ai client call
              e.title e.company e.years e.description
            if i < (u.experience.length : Int) then
              match pySetDescription u.experience i description with
              | some l => (.ok (.experience i description), some { u with experience := l })
              | none =>
                (.err 500 "Failed to regenerate experience: list index out of range", some u)
            else (.ok (.experience i description), some u)
          | none =>
            if (u.experience.length : Int) ≤ i then
              (.err 400 ("Invalid experience index " ++ toString i), some u)
            else
              match pyGetItem u.experience i with
              | none =>
                (.err 500 "Failed to regenerate experience: list index out of range", some u)
              | some e =>
                let description := generate_experience_description_with_ai client call
                  e.title e.company e.years e.description
                if i < (u.experience.length : Int) then
                  match pySetDescription u.experience i description with
                  | some l => (.ok (.experience i description), some { u with experience := l })
                  | none =>
                    (.err 500 "Failed to regenerate experience: list index out of range", some u)
                else (.ok (.experience i description), some u)
      else (.err 400 ("Unknown field " ++ field), some u)

-- ===== Document renderer (generate_pdf.py lines 283-448) =====

/-- `re.sub(r"[^\w\d-]", "_", ...)` on one character (ASCII word chars). -/
def sanitize_char (c : Char) : Char :=
  if c.isAlphanum || c = '_' || c = '-' then c else '_'

/-- Sanitize and truncate to `n` characters, as in
`re.sub(r"[^\w\d-]", "_", s)[:n]`. -/
def sanitize (s : String) (n : Nat) : String :=
  String.mk ((s.data.map sanitize_char).take n)

/-- The `full_data` payload handed to `generate_cv_gemini`. -/
structure FullData where
  experience : List ExperienceEntry
  education : List EducationData
  projects : List ProjectData
  languages : List String
  phone : String
  location : String
  email : String
  summary : String
deriving DecidableEq

/-- `generate_cv_gemini(...)` (generate_pdf.py lines 283-448).
`buildResult` is the oracle for the structured-layout `doc.build(story)`
call: `error` models the layout library raising.  `now` models
`int(time.time())`.  The function body has no try/except: a build error
propagates to the caller, modeled by returning `Except.error`; on success
the deterministic pdf path is returned. -/
def generate_cv_gemini (client : Bool) (summaryCall : Except String (Option GeminiResponse))
    (buildResult : Except String Unit) (now : Nat)
    (name : String) (title : String) (skills : List String) (experience : List String)
    (style : String) (user_id : String) (full_data : Option FullData) :
    Except String String :=
  let fd : FullData :=
    match full_data with
    | some d => d
    | none =>
      { experience := [], education := [], projects := [], languages := []
        phone := "", location := "", email := "", summary := "" }
  let summary_text :=
    if fd.summary = "" then
      generate_summary_with_ai client summaryCall name title skills experience style
        fd.experience fd.education fd.projects
    else fd.summary
  let safe_title := sanitize title 50
  let safe_user_id := sanitize user_id 20
  let pdf_path := "/tmp/pdfs/cv_" ++ safe_user_id ++ "_" ++ safe_title ++ "_" ++
    toString now ++ ".pdf"
  match buildResult with
  | .error e => .error e
  | .ok _ => .ok pdf_path

/-- The `data: ProfileData` body of `/api/generate_cv`. -/
structure ProfileData where
  fullName : String
  title : String
  email : String
  phone : String
  location : String
  summary : String
  skills : List String
  experience : List ExperienceEntry
  education : List EducationData
  projects : List ProjectData
  languages : List String
deriving DecidableEq

/-- `POST /api/generate_cv` (main.py lines 264-309): validates the user id
and the required `fullName`/`title`, updates the session from the payload,
invokes the renderer, and maps a renderer exception to a 500 response. -/
def generate_cv (client : Bool) (summaryCall : Except String (Option GeminiResponse))
    (buildResult : Except String Unit) (now : Nat)
    (user_id : String) (st : Option UserData) (data : ProfileData) :
    Resp String × Option UserData :=
  match st with
  | none => (.err 400 "Invalid or missing user_id", none)
  | some u =>
    if user_id = "" then (.err 400 "Invalid or missing user_id", some u)
    else if data.fullName = "" ∨ data.title = "" then
      (.err 400 "Full name and Professional title are required", some u)
    else
      let full_data : FullData :=
        { experience := data.experience, education := data.education
          projects := data.projects, languages := data.languages
          phone := data.phone, location := data.location
          email := data.email, summary := data.summary }
      let u2 := { u with
        fullName := data.fullName, title := data.title, email := data.email
        phone := data.phone, location := data.location, summary := data.summary
        skills := data.skills, experience := data.experience
        education := data.education, projects := data.projects
        languages := data.languages }
      match generate_cv_gemini client summaryCall buildResult now data.fullName data.title
        data.skills (data.experience.map (fun e => e.description)) "minimal" user_id
        (some full_data) with
      | .ok pdf_path => (.ok pdf_path, some u2)
      | .error e => (.err 500 ("Failed to generate CV: " ++ e), some u2)

/-- A concrete provider profile used by the concrete-input theorems. -/
def alice_profile : ProviderProfile :=
  { name := "Alice", firstName := "Alice", lastName := "Smith"
    email := "alice@example.com", id := "id-1", picture := "pic-url" }

/-- A session seeded from `alice_profile` and then edited by the client:
every CV field filled in and `fullName` changed away from the identity
name. -/
def edited_alice_session : UserData :=
  { initialize_user_data alice_profile with
    fullName := "Bob"
    title := "Developer"
    phone := "555"
    location := "Here"
    summary := "Did much."
    skills := ["X", "Y"]
    experience := [{ title := "Dev", company := "Acme", years := "2020", description := "things" }]
    education := [{ school := "U", degree := "BSc", years := "2015" }]
    projects := [{ name := "P", description := "D" }]
    languages := ["en"] }

-- ===== Helper lemmas about Python strip =====

theorem dropWhile_rdropWhile_of {α : Type} (p : α → Bool) (a : List α)
    (ha : List.dropWhile p a = a) :
    List.dropWhile p (List.rdropWhile p a) = List.rdropWhile p a := by
  rcases hb : List.rdropWhile p a with _ | ⟨x, xs⟩
  · simp
  · obtain ⟨t, ht⟩ := List.rdropWhile_prefix p a
    rw [hb] at ht
    have hpx : p x = false := by
      have hself := ha
      rw [← ht] at hself
      rw [List.cons_append, List.dropWhile_cons] at hself
      by_contra hx
      rw [Bool.not_eq_false] at hx
      rw [if_pos hx] at hself
      have hlen := congrArg List.length hself
      have hle := (List.dropWhile_suffix (l := xs ++ t) p).length_le
      simp only [List.length_cons] at hlen
      omega
    rw [List.dropWhile_cons, hpx]
    simp

theorem pyStripList_idem (l : List Char) :
    pyStripList (pyStripList l) = pyStripList l := by
  show List.rdropWhile pyIsSpace
      (List.dropWhile pyIsSpace (List.rdropWhile pyIsSpace (List.dropWhile pyIsSpace l))) =
    List.rdropWhile pyIsSpace (List.dropWhile pyIsSpace l)
  rw [dropWhile_rdropWhile_of pyIsSpace _ (List.dropWhile_idempotent pyIsSpace l),
    List.rdropWhile_idempotent]

theorem pyStrip_idem (s : String) : pyStrip (pyStrip s) = pyStrip s :=
  congrArg String.mk (pyStripList_idem s.data)

/-- Every label produced by `parse_skills` is non-empty and carries no
leading or trailing whitespace (it is a fixed point of `pyStrip`). -/
theorem parse_skills_mem (s x : String) (hx : x ∈ parse_skills s) :
    x ≠ "" ∧ pyStrip x = x := by
  unfold parse_skills at hx
  rcases List.mem_map.mp hx with ⟨l, hl, rfl⟩
  rcases List.mem_filter.mp hl with ⟨hl2, hne⟩
  rcases List.mem_map.mp hl2 with ⟨y, hy, rfl⟩
  refine ⟨?_, congrArg String.mk (pyStripList_idem y)⟩
  intro hcontra
  have hdata := congrArg String.data hcontra
  simp only [Bool.not_eq_eq_eq_not, Bool.not_true, List.isEmpty_eq_false] at hne
  exact hne (by simpa using hdata)

theorem fallback_skills_wf (title : String) :
    skills_wf (generate_fallback_skills title) := by
  simp only [generate_fallback_skills, skills_wf]
  split_ifs <;> decide

-- ===== Claim theorems =====

/-- C1: for every input and every behavior of the external text-generation
call — raising an exception (`Except.error`), returning an empty or
malformed response (extraction yields `none`), or returning text rejected
by the quality gate — each of `generate_summary_with_ai`,
`generate_skills_with_ai` and `generate_experience_description_with_ai`
returns the corresponding fallback generator's output.  Each function is a
total Lean function, which models that no exception escapes to the
caller: every failure of the call is absorbed inside the `try` block. -/
theorem ai_failure_returns_fallback (client : Bool)
    (call : Except String (Option GeminiResponse))
    (name title company years description style : String)
    (skills experience current_skills : List String)
    (experience_list : List ExperienceEntry) (education_list : List EducationData)
    (projects_list : List ProjectData) :
    (summary_call_failed client call = true →
      generate_summary_with_ai client call name title skills experience style
        experience_list education_list projects_list =
      generate_fallback_summary title skills experience_list) ∧
    (skills_call_failed client call = true →
      generate_skills_with_ai client call title experience current_skills =
      generate_fallback_skills title) ∧
    (experience_call_failed client call = true →
      generate_experience_description_with_ai client call title company years description =
      generate_fallback_experience_description title company description) := by
  refine ⟨?_, ?_, ?_⟩ <;> intro h
  · cases client
    · simp [generate_summary_with_ai]
    · cases call with
      | error e => simp [generate_summary_with_ai]
      | ok r =>
        rcases hex : extract_gemini_text r with _ | s
        · simp [generate_summary_with_ai, hex]
        · have hc : count_char '.' s < 2 := by
            simpa [summary_call_failed, hex] using h
          simp [generate_summary_with_ai, hex, hc]
  · cases client
    · simp [generate_skills_with_ai]
    · cases call with
      | error e => simp [generate_skills_with_ai]
      | ok r =>
        rcases hex : extract_gemini_text r with _ | s
        · simp [generate_skills_with_ai, hex]
        · have hc : (parse_skills s).length < 3 := by
            simpa [skills_call_failed, hex] using h
          simp [generate_skills_with_ai, hex, hc]
  · cases client
    · simp [generate_experience_description_with_ai]
    · cases call with
      | error e => simp [generate_experience_description_with_ai]
      | ok r =>
        rcases hex : extract_gemini_text r with _ | s
        · simp [generate_experience_description_with_ai, hex]
        · have hc : s.length < 50 := by
            simpa [experience_call_failed, hex] using h
          simp [generate_experience_description_with_ai, hex, hc]

/-- Witness for C1 at a concrete failing call (transport error). -/
theorem ai_failure_returns_fallback_witness :
    summary_call_failed false (Except.error "down") = true ∧
    skills_call_failed false (Except.error "down") = true ∧
    experience_call_failed false (Except.error "down") = true ∧
    generate_summary_with_ai false (Except.error "down") "Ada" "Dev" ["Python"] []
      "minimal" [] [] [] = generate_fallback_summary "Dev" ["Python"] [] ∧
    generate_skills_with_ai false (Except.error "down") "Dev" [] [] =
      generate_fallback_skills "Dev" ∧
    generate_experience_description_with_ai false (Except.error "down") "Dev" "Acme"
      "2020" "" = generate_fallback_experience_description "Dev" "Acme" "" :=
  ⟨by decide, by decide, by decide,
    (ai_failure_returns_fallback false (Except.error "down") "Ada" "Dev" "Acme" "2020"
      "" "minimal" ["Python"] [] [] [] [] []).1 (by decide),
    (ai_failure_returns_fallback false (Except.error "down") "Ada" "Dev" "Acme" "2020"
      "" "minimal" ["Python"] [] [] [] [] []).2.1 (by decide),
    (ai_failure_returns_fallback false (Except.error "down") "Ada" "Dev" "Acme" "2020"
      "" "minimal" ["Python"] [] [] [] [] []).2.2 (by decide)⟩

/-- C2: the three fallback generators are pure and deterministic — they are
total Lean functions of their arguments alone (the Python bodies perform
no I/O and read no mutable state), so identical arguments give identical
output. -/
theorem fallback_generators_deterministic
    (t1 t2 c1 c2 d1 d2 : String) (s1 s2 : List String)
    (e1 e2 : List ExperienceEntry)
    (ht : t1 = t2) (hs : s1 = s2) (he : e1 = e2) (hc : c1 = c2) (hd : d1 = d2) :
    generate_fallback_summary t1 s1 e1 = generate_fallback_summary t2 s2 e2 ∧
    generate_fallback_skills t1 = generate_fallback_skills t2 ∧
    generate_fallback_experience_description t1 c1 d1 =
      generate_fallback_experience_description t2 c2 d2 := by
  subst ht hs he hc hd
  exact ⟨rfl, rfl, rfl⟩

/-- Witness for C2 at concrete arguments. -/
theorem fallback_generators_deterministic_witness :
    generate_fallback_summary "Backend Engineer" ["Python", "SQL"] [] =
      generate_fallback_summary "Backend Engineer" ["Python", "SQL"] [] ∧
    generate_fallback_skills "Backend Engineer" =
      generate_fallback_skills "Backend Engineer" ∧
    generate_fallback_experience_description "Backend Engineer" "Acme" "" =
      generate_fallback_experience_description "Backend Engineer" "Acme" "" :=
  fallback_generators_deterministic "Backend Engineer" "Backend Engineer" "Acme" "Acme"
    "" "" ["Python", "SQL"] ["Python", "SQL"] [] [] rfl rfl rfl rfl rfl

/-- C6: when the Gemini API key is absent (the client is not configured),
each generation function is extensionally equal to its fallback generator
on the shared arguments, for every input and call behavior. -/
theorem missing_api_key_degrades_to_fallback
    (call : Except String (Option GeminiResponse))
    (name title company years description style : String)
    (skills experience current_skills : List String)
    (experience_list : List ExperienceEntry) (education_list : List EducationData)
    (projects_list : List ProjectData) :
    generate_summary_with_ai false call name title skills experience style
      experience_list education_list projects_list =
      generate_fallback_summary title skills experience_list ∧
    generate_skills_with_ai false call title experience current_skills =
      generate_fallback_skills title ∧
    generate_experience_description_with_ai false call title company years description =
      generate_fallback_experience_description title company description :=
  ⟨rfl, rfl, rfl⟩

/-- C10: for every input and every call behavior, the list returned by
`generate_skills_with_ai` has between 3 and 12 labels, each non-empty with
no leading or trailing whitespace. -/
theorem generated_skills_always_well_formed (client : Bool)
    (call : Except String (Option GeminiResponse)) (title : String)
    (experience current_skills : List String) :
    skills_wf (generate_skills_with_ai client call title experience current_skills) := by
  unfold generate_skills_with_ai
  split
  · exact fallback_skills_wf title
  · split
    · exact fallback_skills_wf title
    · rename_i r
      rcases hex : extract_gemini_text r with _ | s
      · simp only [hex]
        exact fallback_skills_wf title
      · simp only [hex]
        by_cases hlen : (parse_skills s).length < 3
        · simp only [if_pos hlen]
          exact fallback_skills_wf title
        · simp only [if_neg hlen]
          refine ⟨?_, ?_, ?_⟩
          · rw [List.length_take]; omega
          · rw [List.length_take]; omega
          · intro x hx
            exact parse_skills_mem s x (List.take_subset _ _ hx)

/-- Witness for C10 at a concrete input. -/
theorem generated_skills_always_well_formed_witness :
    skills_wf (generate_skills_with_ai true
      (Except.ok (some (mkResp "a, b, c, d"))) "QA" [] []) :=
  generated_skills_always_well_formed true (Except.ok (some (mkResp "a, b, c, d"))) "QA" [] []

/-- C3 counterexample: the code's quality gate checks only emptiness and the
count of `.` characters.  The two-character extracted text `".."` — shorter
than any meaningful minimum length threshold, and no more informative than
a boilerplate phrase — passes the gate and is returned as the summary
instead of the fallback. -/
theorem summary_gate_accepts_two_char_text :
    extract_gemini_text (some (mkResp "..")) = some ".." ∧
    (".." : String).length = 2 ∧
    generate_summary_with_ai true (Except.ok (some (mkResp ".."))) "Ada" "Engineer"
      [] [] "minimal" [] [] [] = ".." ∧
    (".." : String) ≠ generate_fallback_summary "Engineer" [] [] := by
  exact ⟨by decide, by decide, by decide, by decide⟩

/-- C3 amended: given the client is configured and text `s` is extracted
from the response, `generate_summary_with_ai` returns the fallback exactly
when `s` contains fewer than two `.` characters, and `s` itself otherwise;
there is no further minimum-length threshold or boilerplate-phrase check. -/
theorem summary_quality_gate_exact (r : Option GeminiResponse) (s : String)
    (name title style : String) (skills experience : List String)
    (experience_list : List ExperienceEntry) (education_list : List EducationData)
    (projects_list : List ProjectData)
    (hex : extract_gemini_text r = some s) :
    generate_summary_with_ai true (Except.ok r) name title skills experience style
      experience_list education_list projects_list =
      (if count_char '.' s < 2 then generate_fallback_summary title skills experience_list
       else s) := by
  simp [generate_summary_with_ai, hex]

/-- Witness for the amended C3 at a concrete extracted text. -/
theorem summary_quality_gate_exact_witness :
    extract_gemini_text (some (mkResp "A. B. C.")) = some "A. B. C." ∧
    generate_summary_with_ai true (Except.ok (some (mkResp "A. B. C."))) "Ada" "Engineer"
      [] [] "minimal" [] [] [] =
      (if count_char '.' "A. B. C." < 2 then generate_fallback_summary "Engineer" [] []
       else "A. B. C.") :=
  ⟨by decide,
    summary_quality_gate_exact (some (mkResp "A. B. C.")) "A. B. C." "Ada" "Engineer"
      "minimal" [] [] [] [] [] (by decide)⟩

/-- C4 counterexample: when parsing the AI text yields fewer than 3 labels,
`generate_skills_with_ai` does not return the caller-supplied current
skills (nor a fixed default triad): it returns `generate_fallback_skills`
of the title — here the fixed *four* soft skills, since the title matches
no keyword — ignoring the five current skills supplied by the caller. -/
theorem skills_fallback_ignores_current_skills :
    parse_skills "one, two" = ["one", "two"] ∧
    (parse_skills "one, two").length < 3 ∧
    generate_skills_with_ai true (Except.ok (some (mkResp "one, two"))) "Astronaut" []
      ["A", "B", "C", "D", "E"] =
      ["Problem Solving", "Team Collaboration", "Communication", "Time Management"] ∧
    generate_skills_with_ai true (Except.ok (some (mkResp "one, two"))) "Astronaut" []
      ["A", "B", "C", "D", "E"] ≠ ["A", "B", "C", "D", "E"] := by
  exact ⟨by decide, by decide, by decide, by decide⟩

/-- C4 amended: when splitting the AI-returned text on commas yields fewer
than 3 trimmed non-empty labels, `generate_skills_with_ai` returns
`generate_fallback_skills title` — the title-keyword-driven list, which for
a title matching no keyword is the fixed four soft skills — regardless of
the caller-supplied current skills. -/
theorem skills_low_count_falls_back_to_title_list (r : Option GeminiResponse)
    (s title : String) (experience current_skills : List String)
    (hex : extract_gemini_text r = some s)
    (hlen : (parse_skills s).length < 3) :
    generate_skills_with_ai true (Except.ok r) title experience current_skills =
      generate_fallback_skills title := by
  simp [generate_skills_with_ai, hex, hlen]

/-- Witness for the amended C4 at a concrete two-label AI text. -/
theorem skills_low_count_falls_back_to_title_list_witness :
    extract_gemini_text (some (mkResp "one, two")) = some "one, two" ∧
    (parse_skills "one, two").length < 3 ∧
    generate_skills_with_ai true (Except.ok (some (mkResp "one, two"))) "Astronaut"
      [] ["A", "B", "C", "D", "E"] = generate_fallback_skills "Astronaut" :=
  ⟨by decide, by decide,
    skills_low_count_falls_back_to_title_list (some (mkResp "one, two")) "one, two"
      "Astronaut" [] ["A", "B", "C", "D", "E"] (by decide) (by decide)⟩

/-- C5 counterexample: the title "Manager" matches the manager keyword
family, yet `generate_fallback_skills` returns only the four
manager-specific skills — the fixed soft-skill set (which contains
"Problem Solving") is not appended, unlike the developer and designer
branches. -/
theorem manager_fallback_lacks_soft_skills :
    title_matches manager_keywords (pyLower "Manager") = true ∧
    generate_fallback_skills "Manager" = manager_skills ∧
    "Problem Solving" ∈ common_skills ∧
    "Problem Solving" ∉ generate_fallback_skills "Manager" := by
  exact ⟨by decide, by decide, by decide, by decide⟩

/-- C5 amended: the three keyword families are checked in order; the
developer and designer families return their role-specific list with the
fixed soft skills appended, the manager family returns its role-specific
list alone, and a title matching no keyword yields exactly the fixed
soft-skill set. -/
theorem fallback_skills_by_family (title : String) :
    (title_matches developer_keywords (pyLower title) = true →
      generate_fallback_skills title = developer_skills ++ common_skills) ∧
    (title_matches developer_keywords (pyLower title) = false →
      title_matches designer_keywords (pyLower title) = true →
      generate_fallback_skills title = designer_skills ++ common_skills) ∧
    (title_matches developer_keywords (pyLower title) = false →
      title_matches designer_keywords (pyLower title) = false →
      title_matches manager_keywords (pyLower title) = true →
      generate_fallback_skills title = manager_skills) ∧
    (title_matches developer_keywords (pyLower title) = false →
      title_matches designer_keywords (pyLower title) = false →
      title_matches manager_keywords (pyLower title) = false →
      generate_fallback_skills title = common_skills) := by
  refine ⟨fun h1 => ?_, fun h1 h2 => ?_, fun h1 h2 h3 => ?_, fun h1 h2 h3 => ?_⟩
  · simp [generate_fallback_skills, h1]
  · simp [generate_fallback_skills, h1, h2]
  · simp [generate_fallback_skills, h1, h2, h3]
  · simp [generate_fallback_skills, h1, h2, h3]

/-- Witness for the amended C5 at the titles "UX Designer" and "Manager". -/
theorem fallback_skills_by_family_witness :
    (title_matches developer_keywords (pyLower "UX Designer") = false ∧
      title_matches designer_keywords (pyLower "UX Designer") = true ∧
      generate_fallback_skills "UX Designer" = designer_skills ++ common_skills) ∧
    (title_matches developer_keywords (pyLower "Manager") = false ∧
      title_matches designer_keywords (pyLower "Manager") = false ∧
      title_matches manager_keywords (pyLower "Manager") = true ∧
      generate_fallback_skills "Manager" = manager_skills) :=
  ⟨⟨by decide, by decide,
      (fallback_skills_by_family "UX Designer").2.1 (by decide) (by decide)⟩,
    ⟨by decide, by decide, by decide,
      (fallback_skills_by_family "Manager").2.2.1 (by decide) (by decide) (by decide)⟩⟩

/-- C7 counterexample: `fullName` is not among the claim's identity fields
(name, email, id, picture), so it is a CV field of the stored profile —
yet after `/api/clear` it is not empty: the code resets it to the stored
`name`.  Here the session had `fullName` edited to "Bob"; after clear it
is "Alice", not "". -/
theorem clear_cv_fullName_not_emptied :
    ((clear_cv "u1" (some { initialize_user_data alice_profile with
        fullName := "Bob", title := "Developer" })).2.map (fun u => u.fullName)) =
      some "Alice" ∧
    ("Alice" : String) ≠ "" := by
  exact ⟨by decide, by decide⟩

/-- C7 amended: `/api/clear` on a known user and *any* stored session `u`
(however edited since initialization) returns and stores a record `u2`
whose CV fields `title`, `phone`, `location`, `summary`, `skills`,
`experience`, `education`, `projects`, `languages` are all empty, whose
`fullName` is reset to the stored identity `name` (not to empty), and
whose identity fields `name`, `firstName`, `lastName`, `email`, `id`,
`picture` are exactly those of `u` — so they remain what initialization
put there whenever the session's identity keys were not edited in
between — as a subsequent `GET /api/profile` shows. -/
theorem clear_cv_resets_cv_fields_preserves_identity (user_id : String)
    (u : UserData) (h : user_id ≠ "") :
    ∃ u2, clear_cv user_id (some u) = (.ok u2, some u2) ∧
      get_profile user_id (clear_cv user_id (some u)).2 = .ok u2 ∧
      u2.title = "" ∧ u2.phone = "" ∧ u2.location = "" ∧ u2.summary = "" ∧
      u2.skills = [] ∧ u2.experience = [] ∧ u2.education = [] ∧ u2.projects = [] ∧
      u2.languages = [] ∧ u2.fullName = u.name ∧
      u2.name = u.name ∧ u2.firstName = u.firstName ∧ u2.lastName = u.lastName ∧
      u2.email = u.email ∧ u2.id = u.id ∧ u2.picture = u.picture := by
  refine ⟨{ u with
      fullName := u.name, title := "", phone := "", location := "", summary := "",
      skills := [], experience := [], education := [], projects := [],
      languages := [] }, ?_, ?_, rfl, rfl, rfl, rfl, rfl, rfl, rfl, rfl,
    rfl, rfl, rfl, rfl, rfl, rfl, rfl, rfl⟩
  · simp [clear_cv, h]
  · simp [clear_cv, get_profile, h]

/-- Witness for the amended C7 at a concrete user id and an *edited*
session (`edited_alice_session`): clear empties every CV field, resets
`fullName` from "Bob" back to "Alice", and keeps the identity fields. -/
theorem clear_cv_resets_cv_fields_preserves_identity_witness :
    ("u1" : String) ≠ "" ∧
    (∃ u2, clear_cv "u1" (some edited_alice_session) = (.ok u2, some u2) ∧
      get_profile "u1" (clear_cv "u1" (some edited_alice_session)).2 = .ok u2 ∧
      u2.title = "" ∧ u2.phone = "" ∧ u2.location = "" ∧ u2.summary = "" ∧
      u2.skills = [] ∧ u2.experience = [] ∧ u2.education = [] ∧ u2.projects = [] ∧
      u2.languages = [] ∧ u2.fullName = "Alice" ∧
      u2.name = "Alice" ∧ u2.firstName = "Alice" ∧ u2.lastName = "Smith" ∧
      u2.email = "alice@example.com" ∧ u2.id = "id-1" ∧ u2.picture = "pic-url") :=
  ⟨by decide,
    clear_cv_resets_cv_fields_preserves_identity "u1" edited_alice_session (by decide)⟩

/-- C8 counterexample: a `/api/regenerate` request for field "experience"
with index 5 against a session whose experience list is empty is *not*
rejected when `experience_data` is supplied in the request: the endpoint
answers 200 with a regenerated description (here the deterministic
fallback, the client being unconfigured), skipping the bounds check. -/
theorem regenerate_oob_index_not_rejected_with_data :
    ((5 : Int) ≥ ((initialize_user_data alice_profile).experience.length : Int)) ∧
    (regenerate_field false (Except.error "down") "u1"
        (some (initialize_user_data alice_profile)) "experience" (some 5)
        (some { title := "Dev", company := "Acme", years := "2020",
                description := "did things" }) none).1 =
      .ok (.experience 5
        (generate_fallback_experience_description "Dev" "Acme" "did things")) := by
  exact ⟨by decide, by decide⟩

/-- C8 amended: for field "experience" with an index at or beyond the end of
the (merged) stored experience list, the endpoint returns the 400
validation error "Invalid experience index i" exactly when the request
carries no `experience_data`; when `experience_data` is supplied the
request succeeds with a 200 response built from that data and leaves the
session at the merged state (the out-of-range write is skipped). -/
theorem regenerate_oob_index_validation (client : Bool)
    (call : Except String (Option GeminiResponse)) (user_id : String) (u : UserData)
    (cur : Option (UserData → UserData)) (i : Int)
    (hid : user_id ≠ "")
    (hoob : ((merge_current cur u).experience.length : Int) ≤ i) :
    (regenerate_field client call user_id (some u) "experience" (some i) none cur).1 =
      .err 400 ("Invalid experience index " ++ toString i) ∧
    ∀ e : ExperienceEntry,
      regenerate_field client call user_id (some u) "experience" (some i) (some e) cur =
        (.ok (.experience i (generate_experience_description_with_ai client call
          e.title e.company e.years e.description)), some (merge_current cur u)) := by
  have hnlt : ¬(i < ((merge_current cur u).experience.length : Int)) := by omega
  constructor
  · simp [regenerate_field, hid, hoob]
  · intro e
    simp [regenerate_field, hid, hnlt]

/-- Witness for the amended C8 at a concrete out-of-range request. -/
theorem regenerate_oob_index_validation_witness :
    ("u1" : String) ≠ "" ∧
    ((merge_current none (initialize_user_data alice_profile)).experience.length : Int) ≤ 5 ∧
    (regenerate_field false (Except.error "down") "u1"
      (some (initialize_user_data alice_profile)) "experience" (some 5) none none).1 =
      .err 400 ("Invalid experience index " ++ toString (5 : Int)) :=
  ⟨by decide, by decide,
    (regenerate_oob_index_validation false (Except.error "down") "u1"
      (initialize_user_data alice_profile) none 5 (by decide) (by decide)).1⟩

/-- C9 counterexample: when the structured layout (`doc.build`) raises,
`generate_cv_gemini` does not fall back to a basic page-drawing strategy:
it propagates the exception, and the API layer surfaces it as a 500 server
error — no fallback rendering attempt exists in this code. -/
theorem layout_failure_propagates_no_fallback :
    generate_cv_gemini false (Except.error "no ai") (Except.error "layout failure") 42
      "Alice" "Dev" [] [] "minimal" "u7" none = .error "layout failure" ∧
    (generate_cv false (Except.error "no ai") (Except.error "layout failure") 42 "u7"
      (some (initialize_user_data alice_profile))
      { fullName := "Alice", title := "Dev", email := "", phone := "", location := "",
        summary := "", skills := [], experience := [], education := [], projects := [],
        languages := [] }).1 = .err 500 "Failed to generate CV: layout failure" := by
  exact ⟨rfl, rfl⟩

/-- C9 amended: the renderer has no second rendering strategy: on a
successful build it returns the deterministic pdf path (sanitized
truncated user id and title plus timestamp), and on a build exception it
propagates the error unchanged, which a valid `/api/generate_cv` request
surfaces as a 500 "Failed to generate CV" server error. -/
theorem renderer_propagates_build_errors (client : Bool)
    (summaryCall : Except String (Option GeminiResponse)) (now : Nat)
    (name title : String) (skills experience : List String) (style user_id : String)
    (full_data : Option FullData) (api_user : String) (u : UserData)
    (data : ProfileData) (e : String)
    (hid : api_user ≠ "") (hname : data.fullName ≠ "") (htitle : data.title ≠ "") :
    generate_cv_gemini client summaryCall (Except.ok ()) now name title skills
      experience style user_id full_data =
      .ok ("/tmp/pdfs/cv_" ++ sanitize user_id 20 ++ "_" ++ sanitize title 50 ++ "_" ++
        toString now ++ ".pdf") ∧
    generate_cv_gemini client summaryCall (Except.error e) now name title skills
      experience style user_id full_data = .error e ∧
    (generate_cv client summaryCall (Except.error e) now api_user (some u) data).1 =
      .err 500 ("Failed to generate CV: " ++ e) := by
  refine ⟨rfl, rfl, ?_⟩
  have hv : ¬(data.fullName = "" ∨ data.title = "") := by
    intro hc
    rcases hc with hc | hc
    · exact hname hc
    · exact htitle hc
  simp [generate_cv, hid, hv, generate_cv_gemini]

/-- Witness for the amended C9 at a concrete request and build failure. -/
theorem renderer_propagates_build_errors_witness :
    ("u7" : String) ≠ "" ∧ ("Alice" : String) ≠ "" ∧ ("Dev" : String) ≠ "" ∧
    (generate_cv false (Except.error "no ai") (Except.error "boom") 42 "u7"
      (some (initialize_user_data alice_profile))
      { fullName := "Alice", title := "Dev", email := "", phone := "", location := "",
        summary := "", skills := [], experience := [], education := [], projects := [],
        languages := [] }).1 = .err 500 ("Failed to generate CV: " ++ "boom") :=
  ⟨by decide, by decide, by decide,
    (renderer_propagates_build_errors false (Except.error "no ai") 42 "Alice" "Dev"
      [] [] "minimal" "u7" none "u7" (initialize_user_data alice_profile)
      { fullName := "Alice", title := "Dev", email := "", phone := "", location := "",
        summary := "", skills := [], experience := [], education := [], projects := [],
        languages := [] } "boom" (by decide) (by decide) (by decide)).2.2⟩
